import Mathlib

/-!
Verification of the video-generation request lifecycle of this repository:
the request assembler and operation poller (`generateVideo` in the service
module), the form-level submit validation (`PromptForm`), and the
presentation-layer error classification (`App.handleGenerate`).

The TypeScript source is embedded shallowly: every definition below mirrors
one construct of the source, with JavaScript strings modelled as Lean
`String`, JS `undefined`/absent fields as `Option`, thrown exceptions as
`Except.error`, and the network as an explicit oracle (`NetworkEnv` plus a
list of successive operation statuses).
-/

/-! ## String primitives modelling the JavaScript string operations used -/

/-- Model of `String.prototype.includes`: `pat` occurs contiguously in `l`. -/
def charsContains (l pat : List Char) : Bool :=
  pat.isPrefixOf l ||
    match l with
    | [] => false
    | _ :: t => charsContains t pat

/-- Model of `s.includes(pat)` on JavaScript strings. -/
def strIncludes (s pat : String) : Bool := charsContains s.data pat.data

/-- Characters of a string with leading and trailing whitespace removed. -/
def trimChars (l : List Char) : List Char :=
  ((l.dropWhile Char.isWhitespace).reverse.dropWhile Char.isWhitespace).reverse

/-- Model of `String.prototype.trim` used by the source's `.trim()` calls. -/
def jsTrim (s : String) : String := String.mk (trimChars s.data)

/-- Model of `Array.prototype.join(' ')` used on `raiMediaFilteredReasons`. -/
def joinSpace : List String → String
  | [] => ""
  | [r] => r
  | r :: rest => r ++ " " ++ joinSpace rest

/-- Model of `msg.indexOf(pat)` followed by `msg.substring(i + pat.length)`:
the characters after the first occurrence of `pat`, when `pat` occurs. -/
def charsAfterFirst (l pat : List Char) : Option (List Char) :=
  if pat.isPrefixOf l then some (l.drop pat.length)
  else
    match l with
    | [] => none
    | _ :: t => charsAfterFirst t pat

/-! ## Data model

The enumerations below are the ones imported from `../types` by the source
files. `types.ts` itself is not part of the given sources, but every
constructor used by the source files appears here exactly as referenced
(`VeoModel.VEO`, `VeoModel.VEO_FAST`, `Resolution.P720`, `Resolution.P1080`,
`AspectRatio.LANDSCAPE`, `AspectRatio.PORTRAIT`, and the five generation
modes plus `IMAGE_STORY`). -/

/-- Generation model choice (`VeoModel` enum from `types.ts`). -/
inductive VeoModel
  | VEO
  | VEO_FAST
deriving DecidableEq, Repr

/-- Output resolution (`Resolution` enum from `types.ts`). -/
inductive Resolution
  | P720
  | P1080
deriving DecidableEq, Repr

/-- Output aspect ratio (`AspectRatio` enum from `types.ts`). -/
inductive AspectRatio
  | LANDSCAPE
  | PORTRAIT
deriving DecidableEq, Repr

/-- The closed set of generation modes (`GenerationMode` enum). -/
inductive GenerationMode
  | TEXT_TO_VIDEO
  | IMAGE_TO_VIDEO
  | FRAMES_TO_VIDEO
  | REFERENCES_TO_VIDEO
  | IMAGE_STORY
  | EXTEND_VIDEO
deriving DecidableEq, Repr

/-- A user-selected image: the source reads `img.base64` (encoded payload)
and `img.file.type` (declared media type); the file name is only logged. -/
structure ImageFile where
  base64 : String
  fileType : String
deriving DecidableEq, Repr

/-- A user-selected video file (UI preview only in the current build). -/
structure VideoFile where
  base64 : String
  fileType : String
deriving DecidableEq, Repr

/-- The SDK `Video` object: the result descriptor of a finished operation.
The source reads `video.uri` and logs `video.generationTaskId`. -/
structure Video where
  uri : Option String
  generationTaskId : Option String
deriving DecidableEq, Repr

/-- The argument record of `generateVideo` (`GenerateVideoParams`). -/
structure GenerateVideoParams where
  prompt : String
  model : VeoModel
  aspectRatio : AspectRatio
  resolution : Resolution
  mode : GenerationMode
  startFrame : Option ImageFile
  endFrame : Option ImageFile
  referenceImages : List ImageFile
  styleImage : Option ImageFile
  inputVideo : Option VideoFile
  isLooping : Bool
  duration : Nat
  videoObject : Option Video
deriving DecidableEq, Repr

/-! ## Assembled payload -/

/-- The SDK's reference-image type tag (`VideoGenerationReferenceType`). -/
inductive VideoGenerationReferenceType
  | ASSET
  | STYLE
deriving DecidableEq, Repr

/-- An image as placed in the payload: `{imageBytes, mimeType}`. -/
structure PayloadImage where
  imageBytes : String
  mimeType : String
deriving DecidableEq, Repr

/-- One entry of `config.referenceImages` in the payload. -/
structure VideoGenerationReferenceImage where
  image : PayloadImage
  referenceType : VideoGenerationReferenceType
deriving DecidableEq, Repr

/-- The `config` object of the payload assembled by `generateVideo`. -/
structure GenerateVideoConfig where
  numberOfVideos : Nat
  aspectRatio : AspectRatio
  resolution : Resolution
  durationSecs : Nat
  lastFrame : Option PayloadImage
  referenceImages : Option (List VideoGenerationReferenceImage)
deriving DecidableEq, Repr

/-- The full `generateVideoPayload` object passed to `ai.models.generateVideos`. -/
structure GenerateVideoPayload where
  model : VeoModel
  prompt : String
  config : GenerateVideoConfig
  image : Option PayloadImage
  video : Option Video
deriving DecidableEq, Repr

/-- Conversion of a selected file into its payload form, as written inline by
the source: `{imageBytes: f.base64, mimeType: f.file.type}`. -/
def imagePayloadOf (f : ImageFile) : PayloadImage :=
  { imageBytes := f.base64, mimeType := f.fileType }

/-- The initial `generateVideoPayload` object (lines 27-36): the user's model
and settings, one video, no media attached yet. -/
def basePayload (params : GenerateVideoParams) : GenerateVideoPayload :=
  { model := params.model
    prompt := ""
    config :=
      { numberOfVideos := 1
        aspectRatio := params.aspectRatio
        resolution := params.resolution
        durationSecs := params.duration
        lastFrame := none
        referenceImages := none }
    image := none
    video := none }

/-- The extend-video block (lines 38-51): requires a prior `videoObject` and
forces the provider-mandated fixed settings for extension. -/
def extendStep (params : GenerateVideoParams) (base : GenerateVideoPayload) :
    Except String GenerateVideoPayload :=
  if params.mode = GenerationMode.EXTEND_VIDEO then
    match params.videoObject with
    | some v =>
      Except.ok
        { base with
          video := some v
          model := VeoModel.VEO
          config := { base.config with resolution := Resolution.P720, durationSecs := 7 } }
    | none => Except.error "Video object is required for Extend Video mode."
  else Except.ok base

/-- The `durationForPrompt` local (lines 58-59): 7 in extend mode, the user's
selected duration otherwise. -/
def durationForPromptOf (params : GenerateVideoParams) : Nat :=
  if params.mode = GenerationMode.EXTEND_VIDEO then 7 else params.duration

/-- The `finalPrompt` local (lines 56-66): the synthetic duration-carrying
instruction, prepended to the trimmed user prompt when that is non-empty. -/
def finalPromptOf (params : GenerateVideoParams) : String :=
  if jsTrim params.prompt ≠ "" then
    "A " ++ toString (durationForPromptOf params) ++ " second video of: " ++ jsTrim params.prompt
  else
    "A " ++ toString (durationForPromptOf params) ++ " second video."

/-- The mode-specific media attachment chain (lines 76-151): source image,
start/end frames with the looping reuse, or reference/style images. -/
def mediaStep (params : GenerateVideoParams) (p2 : GenerateVideoPayload) :
    GenerateVideoPayload :=
  if params.mode = GenerationMode.IMAGE_TO_VIDEO then
    match params.startFrame with
    | some sf => { p2 with image := some (imagePayloadOf sf) }
    | none => p2
  else if params.mode = GenerationMode.FRAMES_TO_VIDEO then
    let p2a :=
      match params.startFrame with
      | some sf => { p2 with image := some (imagePayloadOf sf) }
      | none => p2
    let finalEndFrame :=
      if params.isLooping then params.startFrame else params.endFrame
    match finalEndFrame with
    | some ef =>
      { p2a with config := { p2a.config with lastFrame := some (imagePayloadOf ef) } }
    | none => p2a
  else if params.mode = GenerationMode.REFERENCES_TO_VIDEO ∨
      params.mode = GenerationMode.IMAGE_STORY then
    let referenceImagesPayload : List VideoGenerationReferenceImage :=
      params.referenceImages.map (fun img =>
        { image := imagePayloadOf img
          referenceType := VideoGenerationReferenceType.ASSET })
    let withStyle : List VideoGenerationReferenceImage :=
      if params.mode = GenerationMode.REFERENCES_TO_VIDEO then
        match params.styleImage with
        | some st =>
          referenceImagesPayload ++
            [{ image := imagePayloadOf st
               referenceType := VideoGenerationReferenceType.STYLE }]
        | none => referenceImagesPayload
      else referenceImagesPayload
    if withStyle.length > 0 then
      { p2 with config := { p2.config with referenceImages := some withStyle } }
    else p2
  else p2

/-- The request assembler: lines 27-151 of the service module, i.e. everything
`generateVideo` does before the network submission call. Returns the payload,
or the thrown validation error (the extend-mode prompt check of lines 68-72
sits between the extend block and the media chain, exactly as in the source). -/
def buildPayload (params : GenerateVideoParams) : Except String GenerateVideoPayload :=
  match extendStep params (basePayload params) with
  | Except.error e => Except.error e
  | Except.ok p1 =>
    if params.mode = GenerationMode.EXTEND_VIDEO ∧ jsTrim params.prompt = "" then
      Except.error "A prompt is required to describe what happens next in the video extension."
    else Except.ok (mediaStep params { p1 with prompt := finalPromptOf params })

/-! ## Operation handle and poller -/

/-- A terminal provider error carried by a finished operation. -/
structure OperationError where
  message : String
  code : Nat
deriving DecidableEq, Repr

/-- One element of `response.generatedVideos`. -/
structure GeneratedVideo where
  video : Option Video
deriving DecidableEq, Repr

/-- The `response` object of a finished operation. -/
structure OperationResponse where
  generatedVideos : Option (List GeneratedVideo)
  raiMediaFilteredReasons : Option (List String)
deriving DecidableEq, Repr

/-- A long-running-operation handle as observed by the client: a completion
flag, an optional terminal error, and an optional response. -/
structure Operation where
  done : Bool
  error : Option OperationError
  response : Option OperationResponse
deriving DecidableEq, Repr

/-- A `fetch` response as used by the source: `ok`, `status`, `statusText`,
the text body read on failure, and the blob read on success. -/
structure FetchResponse where
  ok : Bool
  status : Nat
  statusText : String
  body : String
  blob : String
deriving Repr

/-- The ambient environment of the network steps after polling: the API key
appended to the media URL, the `fetch` function, and `URL.createObjectURL`. -/
structure NetworkEnv where
  apiKey : String
  fetch : String → FetchResponse
  createObjectURL : String → String

/-- The record returned by `generateVideo` on success. -/
structure GenResult where
  videoUrl : String
  videoObject : Video
  videoBlob : String
deriving DecidableEq, Repr

/-- Network-visible events of one `generateVideo` run, used to state that a
validation failure happens before any network call. -/
inductive NetEvent
  | submit
  | pollFetch
  | mediaFetch
deriving DecidableEq, Repr

/-- The generic no-video failure message thrown by the source. -/
def noVideoGenericMsg : String :=
  "The model did not generate a video, which may be due to safety filters. Please try modifying your prompt or images."

/-- Terminal-state classification and media retrieval: lines 163-226 of the
service module, run on the operation once its `done` flag is observed set.
Also returns the media-fetch events it performs. -/
def finishOperation (env : NetworkEnv) (operation : Operation) :
    Except String GenResult × List NetEvent :=
  match operation.error with
  | some e =>
    (Except.error
        ("Video generation failed: " ++ e.message ++ " (Code: " ++ toString e.code ++ ")"),
      [])
  | none =>
    match operation.response with
    | some resp =>
      let emptyResult : Except String GenResult × List NetEvent :=
        match resp.raiMediaFilteredReasons with
        | some raiReasons =>
          if raiReasons.length > 0 then
            (Except.error
                ("The model did not generate a video due to safety policies. Reason: " ++
                  joinSpace raiReasons),
              [])
          else (Except.error noVideoGenericMsg, [])
        | none => (Except.error noVideoGenericMsg, [])
      match resp.generatedVideos with
      | none => emptyResult
      | some [] => emptyResult
      | some (firstVideo :: _) =>
        match firstVideo.video with
        | none => (Except.error "Generated video is missing a URI.", [])
        | some vid =>
          match vid.uri with
          | none => (Except.error "Generated video is missing a URI.", [])
          | some url =>
            if url = "" then (Except.error "Generated video is missing a URI.", [])
            else
              let finalUrl := url ++ "&key=" ++ env.apiKey
              let res := env.fetch finalUrl
              if res.ok then
                (Except.ok
                    { videoUrl := env.createObjectURL res.blob
                      videoObject := vid
                      videoBlob := res.blob },
                  [NetEvent.mediaFetch])
              else
                (Except.error
                    ("Failed to fetch video: " ++ toString res.status ++ " " ++ res.statusText),
                  [NetEvent.mediaFetch])
    | none =>
      (Except.error "Video generation finished without a response or an error. Please try again.",
        [])

/-- The polling loop (lines 157-161): the first status is what the submission
call returned; while `done` is unset the loop suspends 10000 ms and re-fetches,
consuming the next status of the oracle list. Returns the first status observed
with `done` set (or `none` when the finite oracle is exhausted undone, i.e. the
loop is still running), together with the list of sleep durations performed. -/
def pollStatuses : List Operation → Option Operation × List Nat
  | [] => (none, [])
  | operation :: rest =>
    if operation.done then (some operation, [])
    else
      let p := pollStatuses rest
      (p.1, 10000 :: p.2)

/-- Poll to completion, then classify the terminal state: the poller half of
`generateVideo`, over an oracle list of successive operation statuses. -/
def awaitVideo (env : NetworkEnv) (statuses : List Operation) :
    Option (Except String GenResult) :=
  (pollStatuses statuses).1.map (fun op => (finishOperation env op).1)

/-- One full `generateVideo` run: assemble the payload (failing before any
network call on validation errors), submit, poll, finish. The second component
is the trace of network calls performed; `none` in the first component means
the poll loop is still running when the status oracle ends. -/
def generateVideoRun (env : NetworkEnv) (statuses : List Operation)
    (params : GenerateVideoParams) : Option (Except String GenResult) × List NetEvent :=
  match buildPayload params with
  | Except.error e => (some (Except.error e), [])
  | Except.ok _payload =>
    match pollStatuses statuses with
    | (none, sleeps) =>
      (none, NetEvent.submit :: List.replicate sleeps.length NetEvent.pollFetch)
    | (some finalOp, sleeps) =>
      let fin := finishOperation env finalOp
      (some fin.1,
        (NetEvent.submit :: List.replicate sleeps.length NetEvent.pollFetch) ++ fin.2)

/-! ## Form layer (`PromptForm`) -/

/-- The form state held by `PromptForm` (the fields passed to `onGenerate`). -/
structure FormState where
  prompt : String
  model : VeoModel
  aspectRatio : AspectRatio
  resolution : Resolution
  generationMode : GenerationMode
  startFrame : Option ImageFile
  endFrame : Option ImageFile
  referenceImages : List ImageFile
  styleImage : Option ImageFile
  inputVideo : Option VideoFile
  isLooping : Bool
  duration : Nat
deriving Repr

/-- The submit-gating switch of `PromptForm` (lines 582-616): `some reason`
models `isSubmitDisabled = true` with `tooltipText = reason`; `none` models an
enabled submit button. -/
def submitValidation (s : FormState) : Option String :=
  match s.generationMode with
  | GenerationMode.TEXT_TO_VIDEO =>
    if jsTrim s.prompt = "" then some "Please enter a prompt." else none
  | GenerationMode.IMAGE_TO_VIDEO =>
    match s.startFrame with
    | none => some "A source image is required."
    | some _ => none
  | GenerationMode.FRAMES_TO_VIDEO =>
    match s.startFrame with
    | none => some "A start frame is required."
    | some _ => none
  | GenerationMode.REFERENCES_TO_VIDEO =>
    let hasNoRefs := s.referenceImages.isEmpty
    let hasNoPrompt := jsTrim s.prompt = ""
    if hasNoRefs ∧ hasNoPrompt then
      some "Please add reference image(s) and enter a prompt."
    else if hasNoRefs then some "At least one reference image is required."
    else if hasNoPrompt then some "Please enter a prompt."
    else none
  | _ => none

/-- The argument record `handleSubmit` passes to `onGenerate` (lines 376-409).
`videoObject` is not among the fields passed, hence `none` here. -/
def FormState.toParams (s : FormState) : GenerateVideoParams :=
  { prompt := s.prompt
    model := s.model
    aspectRatio := s.aspectRatio
    resolution := s.resolution
    mode := s.generationMode
    startFrame := s.startFrame
    endFrame := s.endFrame
    referenceImages := s.referenceImages
    styleImage := s.styleImage
    inputVideo := s.inputVideo
    isLooping := s.isLooping
    duration := s.duration
    videoObject := none }

/-- The `useEffect` of `PromptForm` (lines 347-353) that pins model, aspect
ratio and resolution whenever the references mode is active; the corresponding
select controls are disabled while in that mode, so any reachable form state in
references mode is a fixed point of this function. -/
def applyReferencesPin (s : FormState) : FormState :=
  if s.generationMode = GenerationMode.REFERENCES_TO_VIDEO then
    { s with
      model := VeoModel.VEO
      aspectRatio := AspectRatio.LANDSCAPE
      resolution := Resolution.P720 }
  else s

/-- `handleReferenceSelect` (lines 503-512): adds newly picked reference
images, capped so the set never exceeds 3. -/
def handleReferenceSelect (prevImages newImages : List ImageFile) : List ImageFile :=
  let spaceLeft := 3 - prevImages.length
  if spaceLeft = 0 then prevImages
  else prevImages ++ newImages.take spaceLeft

/-- A form submission: when `submitValidation` yields a reason the submit
button is disabled and nothing runs (no network event); otherwise
`handleSubmit` invokes `generateVideo` with the form's fields. -/
def submitForm (env : NetworkEnv) (statuses : List Operation) (s : FormState) :
    Option (Except String GenResult) × List NetEvent :=
  if (submitValidation s).isSome then (none, [])
  else generateVideoRun env statuses s.toParams

/-! ## Presentation-layer error classification (`App.handleGenerate`) -/

/-- The user-facing failure categories set by `handleGenerate`'s catch block. -/
inductive ErrorCategory
  | quota
  | imagePolicy (reason : Option String)
  | keyPermission (message : String)
  | generic (message : String)
deriving DecidableEq, Repr

/-- Reason extraction of the image-policy branch: the text after the first
occurrence of the marker `"Reason: "`, when present. -/
def extractReason (msg : String) : Option String :=
  (charsAfterFirst msg.data "Reason: ".data).map String.mk

/-- The catch-block classification of `App.handleGenerate` (lines 86-191):
quota phrases are checked first, then the no-video/safety phrase, then
key/permission phrases; anything else is the generic category carrying the raw
message appended to the generic failure text. -/
def classifyError (msg : String) : ErrorCategory :=
  if strIncludes msg "exceeded your current quota" || strIncludes msg "RESOURCE_EXHAUSTED" then
    ErrorCategory.quota
  else if strIncludes msg "The model did not generate a video" then
    ErrorCategory.imagePolicy (extractReason msg)
  else if strIncludes msg "API_KEY_INVALID" || strIncludes msg "API key not valid" ||
      strIncludes msg.toLower "permission denied" ||
      strIncludes msg "Requested entity was not found." then
    ErrorCategory.keyPermission
      "Video generation failed due to an API key or permission issue. Please check if the API key is valid and has the required permissions."
  else
    ErrorCategory.generic ("Video generation failed: " ++ msg)

/-! ## Derived views of the assembled reference list

`assetEntries`/`styleEntries` name the two halves of the `referenceImages`
array the source builds in references/story mode: the loop over
`params.referenceImages` (ASSET entries) and the conditional style push
(a single STYLE entry in references mode). -/

/-- The ASSET-typed entries built from the user's reference images. -/
def assetEntries (params : GenerateVideoParams) : List VideoGenerationReferenceImage :=
  params.referenceImages.map (fun img =>
    { image := imagePayloadOf img
      referenceType := VideoGenerationReferenceType.ASSET })

/-- The STYLE-typed entry built from the optional style image (references
mode only pushes it; at most one entry). -/
def styleEntries (params : GenerateVideoParams) : List VideoGenerationReferenceImage :=
  match params.styleImage with
  | some st =>
    [{ image := imagePayloadOf st
       referenceType := VideoGenerationReferenceType.STYLE }]
  | none => []

/-! ## Concrete fixtures used by the witness theorems -/

/-- A concrete network environment: every fetch succeeds with a fixed blob. -/
def testEnv : NetworkEnv :=
  { apiKey := "KEY"
    fetch := fun _ =>
      { ok := true, status := 200, statusText := "OK", body := "", blob := "BLOBBYTES" }
    createObjectURL := fun b => "blob:" ++ b }

/-- A still-running operation status. -/
def pendingOpW : Operation :=
  { done := false, error := none, response := none }

/-- A concrete result descriptor with a retrievable location. -/
def vidW : Video :=
  { uri := some "http://v.example/file", generationTaskId := none }

/-- A completed operation carrying one generated video. -/
def doneOkOpW : Operation :=
  { done := true
    error := none
    response := some
      { generatedVideos := some [{ video := some vidW }]
        raiMediaFilteredReasons := none } }

/-- A completed operation carrying a terminal error object. -/
def opErrorW : Operation :=
  { done := true, error := some { message := "X", code := 7 }, response := none }

/-- A completed operation with an empty result set and a safety reason. -/
def opRaiW : Operation :=
  { done := true
    error := none
    response := some
      { generatedVideos := some []
        raiMediaFilteredReasons := some ["violent content"] } }

/-- A completed operation with neither a response nor an error. -/
def opNoResponseW : Operation :=
  { done := true, error := none, response := none }

/-- A baseline parameter record (text mode, defaults of the form). -/
def paramsBaseW : GenerateVideoParams :=
  { prompt := "a cat"
    model := VeoModel.VEO_FAST
    aspectRatio := AspectRatio.PORTRAIT
    resolution := Resolution.P720
    mode := GenerationMode.TEXT_TO_VIDEO
    startFrame := none
    endFrame := none
    referenceImages := []
    styleImage := none
    inputVideo := none
    isLooping := false
    duration := 15
    videoObject := none }

/-- A concrete start-frame image. -/
def startFrameW : ImageFile := { base64 := "U1RBUlQ=", fileType := "image/png" }

/-- Frames-to-video parameters with the loop flag set and no end frame. -/
def paramsFramesLoopW : GenerateVideoParams :=
  { paramsBaseW with
    mode := GenerationMode.FRAMES_TO_VIDEO
    startFrame := some startFrameW
    isLooping := true }

/-- Extend-mode parameters lacking the prior result handle. -/
def paramsExtendNoVideoW : GenerateVideoParams :=
  { paramsBaseW with mode := GenerationMode.EXTEND_VIDEO }

/-- Extend-mode parameters with a handle but an empty prompt. -/
def paramsExtendNoPromptW : GenerateVideoParams :=
  { paramsBaseW with
    mode := GenerationMode.EXTEND_VIDEO
    prompt := "   "
    videoObject := some vidW }

/-- A valid extend-mode parameter record. -/
def paramsExtendOkW : GenerateVideoParams :=
  { paramsBaseW with
    mode := GenerationMode.EXTEND_VIDEO
    prompt := "what happens next"
    model := VeoModel.VEO_FAST
    resolution := Resolution.P1080
    duration := 30
    videoObject := some vidW }

/-- A baseline form state (the form's initial defaults). -/
def formBaseW : FormState :=
  { prompt := ""
    model := VeoModel.VEO_FAST
    aspectRatio := AspectRatio.PORTRAIT
    resolution := Resolution.P720
    generationMode := GenerationMode.TEXT_TO_VIDEO
    startFrame := none
    endFrame := none
    referenceImages := []
    styleImage := none
    inputVideo := none
    isLooping := false
    duration := 15 }

/-- Image mode with no source image selected. -/
def formImageNoneW : FormState :=
  { formBaseW with generationMode := GenerationMode.IMAGE_TO_VIDEO, prompt := "move it" }

/-- A concrete reference and style image pair. -/
def refImgW : ImageFile := { base64 := "UkVG", fileType := "image/jpeg" }

/-- A concrete style image. -/
def styleImgW : ImageFile := { base64 := "U1RZTEU=", fileType := "image/png" }

/-- References mode with one reference image, one style image, and the pinned
settings left at arbitrary other values before the pinning effect runs. -/
def formRefsW : FormState :=
  { formBaseW with
    generationMode := GenerationMode.REFERENCES_TO_VIDEO
    prompt := "hero walks away"
    model := VeoModel.VEO_FAST
    aspectRatio := AspectRatio.PORTRAIT
    resolution := Resolution.P1080
    referenceImages := [refImgW]
    styleImage := some styleImgW }

/-! ## Helper lemmas -/

/-- A pattern standing contiguously inside a character list is found by
`charsContains`. -/
theorem charsContains_append_middle (u pat v : List Char) :
    charsContains (u ++ (pat ++ v)) pat = true := by
  induction u with
  | nil =>
    rw [List.nil_append, charsContains.eq_def, Bool.or_eq_true]
    left
    rw [ List.isPrefixOf_iff_prefix]
    exact ⟨v, rfl⟩
  | cons c cs ih =>
    rw [List.cons_append, charsContains.eq_def, Bool.or_eq_true]
    right
    exact ih

/-- String-level form of `charsContains_append_middle`. -/
theorem strIncludes_of_data (s pat : String) (u v : List Char)
    (h : s.data = u ++ (pat.data ++ v)) : strIncludes s pat = true := by
  rw [strIncludes, h]
  exact charsContains_append_middle u pat.data v

/-- A string occurring between two others is found by `strIncludes`. -/
theorem strIncludes_append3 (a pat b : String) :
    strIncludes (a ++ pat ++ b) pat = true := by
  apply strIncludes_of_data _ _ a.data b.data
  simp [String.data_append]

/-- A string occurring as a suffix is found by `strIncludes`. -/
theorem strIncludes_append_left (a pat : String) :
    strIncludes (a ++ pat) pat = true := by
  apply strIncludes_of_data _ _ a.data []
  simp [String.data_append]

/-- Every member of a joined list stands contiguously in the join. -/
theorem joinSpace_mem (r : String) (rs : List String) (h : r ∈ rs) :
    ∃ u v, (joinSpace rs).data = u ++ (r.data ++ v) := by
  induction rs with
  | nil => cases h
  | cons a t ih =>
    cases t with
    | nil =>
      rw [List.mem_singleton] at h
      subst h
      exact ⟨[], [], by simp [joinSpace]⟩
    | cons b t2 =>
      rcases List.mem_cons.mp h with h' | hmem
      · subst h'
        refine ⟨[], (" " ++ joinSpace (b :: t2)).data, ?_⟩
        simp [joinSpace, String.data_append]
      · obtain ⟨u, v, huv⟩ := ih hmem
        refine ⟨a.data ++ " ".data ++ u, v, ?_⟩
        simp [joinSpace, String.data_append, huv]

/-- The media-attachment chain never touches the prompt, model, settings, or
the attached prior video of the payload it decorates. -/
theorem mediaStep_preserves (params : GenerateVideoParams) (p : GenerateVideoPayload) :
    (mediaStep params p).prompt = p.prompt ∧
    (mediaStep params p).model = p.model ∧
    (mediaStep params p).config.aspectRatio = p.config.aspectRatio ∧
    (mediaStep params p).config.resolution = p.config.resolution ∧
    (mediaStep params p).config.durationSecs = p.config.durationSecs ∧
    (mediaStep params p).video = p.video := by
  unfold mediaStep
  repeat' split <;> (try simp_all)

/-- Polling a run of undone statuses followed by a done one performs exactly
one 10000 ms suspension per undone status and stops at the done one. -/
theorem pollStatuses_append_done (front : List Operation) (finalOp : Operation)
    (hfront : ∀ op ∈ front, op.done = false) (hdone : finalOp.done = true) :
    pollStatuses (front ++ [finalOp]) = (some finalOp, List.replicate front.length 10000) := by
  induction front with
  | nil => simp [pollStatuses, hdone]
  | cons a t ih =>
    have ha : a.done = false := hfront a (by simp)
    have ih' := ih (fun op hop => hfront op (List.mem_cons_of_mem a hop))
    simp [pollStatuses, ha, ih', List.replicate_succ]

/-- In any non-extend mode the assembler cannot fail: it returns the media
chain applied to the base payload carrying the synthetic prompt. -/
theorem buildPayload_not_extend (params : GenerateVideoParams)
    (h : params.mode ≠ GenerationMode.EXTEND_VIDEO) :
    buildPayload params =
      Except.ok (mediaStep params { basePayload params with prompt := finalPromptOf params }) := by
  simp [buildPayload, extendStep, h]

/-- Extend mode without a prior video object fails with the dedicated reason. -/
theorem buildPayload_extend_noVideo (params : GenerateVideoParams)
    (hm : params.mode = GenerationMode.EXTEND_VIDEO)
    (hv : params.videoObject = none) :
    buildPayload params = Except.error "Video object is required for Extend Video mode." := by
  simp [buildPayload, extendStep, hm, hv]

/-- Extend mode with an empty trimmed prompt fails with the dedicated reason. -/
theorem buildPayload_extend_noPrompt (params : GenerateVideoParams) (v : Video)
    (hm : params.mode = GenerationMode.EXTEND_VIDEO)
    (hv : params.videoObject = some v)
    (hp : jsTrim params.prompt = "") :
    buildPayload params =
      Except.error "A prompt is required to describe what happens next in the video extension." := by
  simp [buildPayload, extendStep, hm, hv, hp]

/-- A valid extend request assembles the base payload with the prior video
attached and the provider-mandated settings forced. -/
theorem buildPayload_extend_ok (params : GenerateVideoParams) (v : Video)
    (hm : params.mode = GenerationMode.EXTEND_VIDEO)
    (hv : params.videoObject = some v)
    (hp : jsTrim params.prompt ≠ "") :
    buildPayload params =
      Except.ok
        { basePayload params with
          video := some v
          model := VeoModel.VEO
          config :=
            { (basePayload params).config with
              resolution := Resolution.P720
              durationSecs := 7 }
          prompt := finalPromptOf params } := by
  simp [buildPayload, extendStep, mediaStep, hm, hv, hp]

/-- Whatever the mode, a successfully assembled payload carries the synthetic
duration prompt as its prompt text. -/
theorem buildPayload_ok_prompt (params : GenerateVideoParams)
    (payload : GenerateVideoPayload) (h : buildPayload params = Except.ok payload) :
    payload.prompt = finalPromptOf params := by
  by_cases hm : params.mode = GenerationMode.EXTEND_VIDEO
  · cases hv : params.videoObject with
    | none => rw [buildPayload_extend_noVideo params hm hv] at h; cases h
    | some v =>
      by_cases hp : jsTrim params.prompt = ""
      · rw [buildPayload_extend_noPrompt params v hm hv hp] at h; cases h
      · rw [buildPayload_extend_ok params v hm hv hp] at h
        cases h
        rfl
  · rw [buildPayload_not_extend params hm] at h
    cases h
    rw [(mediaStep_preserves params _).1]

/-! ## Claim theorems -/

/-- C5: for every completed operation carrying a terminal error object, the
poller fails with the composed message, and that message contains both the
provider's error text and its code. -/
theorem C5_error_message_contains_text_and_code (env : NetworkEnv)
    (operation : Operation) (e : OperationError) (h : operation.error = some e) :
    (finishOperation env operation).1 =
      Except.error
        ("Video generation failed: " ++ e.message ++ " (Code: " ++ toString e.code ++ ")") ∧
    strIncludes
      ("Video generation failed: " ++ e.message ++ " (Code: " ++ toString e.code ++ ")")
      e.message = true ∧
    strIncludes
      ("Video generation failed: " ++ e.message ++ " (Code: " ++ toString e.code ++ ")")
      (toString e.code) = true := by
  refine ⟨by simp [finishOperation, h], ?_, ?_⟩
  · apply strIncludes_of_data _ _ "Video generation failed: ".data
      (" (Code: " ++ toString e.code ++ ")").data
    simp [String.data_append]
  · apply strIncludes_of_data _ _
      ("Video generation failed: " ++ e.message ++ " (Code: ").data ")".data
    simp [String.data_append]

/-- Witness for C5 at the concrete operation `opErrorW` (message `"X"`,
code `7`). -/
theorem C5_error_message_contains_text_and_code_witness :
    (finishOperation testEnv opErrorW).1 =
      Except.error ("Video generation failed: " ++ "X" ++ " (Code: " ++ toString (7 : Nat) ++ ")") ∧
    strIncludes ("Video generation failed: " ++ "X" ++ " (Code: " ++ toString (7 : Nat) ++ ")")
      "X" = true ∧
    strIncludes ("Video generation failed: " ++ "X" ++ " (Code: " ++ toString (7 : Nat) ++ ")")
      (toString (7 : Nat)) = true :=
  C5_error_message_contains_text_and_code testEnv opErrorW ⟨"X", 7⟩ rfl

/-- C6: for a completed operation with no terminal error and an empty result
set, a populated content-safety reasons list produces a failure whose message
contains every listed reason; with no such list (or an empty one) the generic
no-video message is produced. -/
theorem C6_empty_result_safety_classification (env : NetworkEnv)
    (operation : Operation) (resp : OperationResponse)
    (herr : operation.error = none)
    (hresp : operation.response = some resp)
    (hempty : resp.generatedVideos = none ∨ resp.generatedVideos = some []) :
    (∀ rs, resp.raiMediaFilteredReasons = some rs → 0 < rs.length →
      (finishOperation env operation).1 =
        Except.error
          ("The model did not generate a video due to safety policies. Reason: " ++
            joinSpace rs) ∧
      ∀ r ∈ rs,
        strIncludes
          ("The model did not generate a video due to safety policies. Reason: " ++
            joinSpace rs) r = true) ∧
    ((resp.raiMediaFilteredReasons = none ∨ resp.raiMediaFilteredReasons = some []) →
      (finishOperation env operation).1 = Except.error noVideoGenericMsg) := by
  constructor
  · intro rs hrs hlen
    constructor
    · rcases hempty with he | he <;> simp [finishOperation, herr, hresp, he, hrs, hlen]
    · intro r hr
      obtain ⟨u, v, huv⟩ := joinSpace_mem r rs hr
      apply strIncludes_of_data _ _
        ("The model did not generate a video due to safety policies. Reason: ".data ++ u) v
      simp [String.data_append, huv]
  · intro hrai
    rcases hempty with he | he <;> rcases hrai with hr | hr <;>
      simp [finishOperation, herr, hresp, he, hr]

/-- Witness for C6 at the concrete operation `opRaiW` (empty result set,
reasons list `["violent content"]`). -/
theorem C6_empty_result_safety_classification_witness :
    (finishOperation testEnv opRaiW).1 =
      Except.error
        ("The model did not generate a video due to safety policies. Reason: " ++
          joinSpace ["violent content"]) ∧
    strIncludes
      ("The model did not generate a video due to safety policies. Reason: " ++
        joinSpace ["violent content"]) "violent content" = true := by
  have h := (C6_empty_result_safety_classification testEnv opRaiW
      { generatedVideos := some [], raiMediaFilteredReasons := some ["violent content"] }
      rfl rfl (Or.inr rfl)).1 ["violent content"] rfl (by decide)
  exact ⟨h.1, h.2 "violent content" (by decide)⟩

/-- C7: any failure message containing `"RESOURCE_EXHAUSTED"` (or the quota
phrase) is classified as the quota category, never the generic category. -/
theorem C7_resource_exhausted_is_quota (msg : String)
    (h : strIncludes msg "RESOURCE_EXHAUSTED" = true ∨
      strIncludes msg "exceeded your current quota" = true) :
    classifyError msg = ErrorCategory.quota ∧
    ∀ raw, classifyError msg ≠ ErrorCategory.generic raw := by
  have hq : (strIncludes msg "exceeded your current quota" ||
      strIncludes msg "RESOURCE_EXHAUSTED") = true := by
    rcases h with h | h <;> simp [h]
  refine ⟨by simp [classifyError, hq], ?_⟩
  intro raw
  simp [classifyError, hq]

/-- Witness for C7 at a concrete message containing `"RESOURCE_EXHAUSTED"`. -/
theorem C7_resource_exhausted_is_quota_witness :
    classifyError "429 RESOURCE_EXHAUSTED: too many requests" = ErrorCategory.quota ∧
    ∀ raw, classifyError "429 RESOURCE_EXHAUSTED: too many requests" ≠
      ErrorCategory.generic raw :=
  C7_resource_exhausted_is_quota "429 RESOURCE_EXHAUSTED: too many requests"
    (Or.inl (by decide))

/-- C10: a completed operation with neither a terminal error nor a response
makes the poller raise the dedicated try-again error rather than return. -/
theorem C10_no_response_no_error_raises (env : NetworkEnv) (operation : Operation)
    (_hdone : operation.done = true)
    (herr : operation.error = none) (hresp : operation.response = none) :
    (finishOperation env operation).1 =
      Except.error
        "Video generation finished without a response or an error. Please try again." := by
  simp [finishOperation, herr, hresp]

/-- Witness for C10 at the concrete operation `opNoResponseW`. -/
theorem C10_no_response_no_error_raises_witness :
    (finishOperation testEnv opNoResponseW).1 =
      Except.error
        "Video generation finished without a response or an error. Please try again." :=
  C10_no_response_no_error_raises testEnv opNoResponseW rfl rfl rfl

/-- C2: for any run of statuses with the completion flag unset followed by a
completed status carrying a non-empty result, the poller performs exactly one
fixed 10000 ms suspension per undone status (whatever their number - no
maximum-attempt cutoff), terminates only at the completed status, and returns
the first result's fetched media without raising an error. -/
theorem C2_poller_waits_for_done_and_returns_media (env : NetworkEnv)
    (front : List Operation) (finalOp : Operation) (resp : OperationResponse)
    (gv : GeneratedVideo) (more : List GeneratedVideo) (vid : Video) (url : String)
    (hfront : ∀ op ∈ front, op.done = false)
    (hdone : finalOp.done = true)
    (herr : finalOp.error = none)
    (hresp : finalOp.response = some resp)
    (hvids : resp.generatedVideos = some (gv :: more))
    (hgv : gv.video = some vid)
    (huri : vid.uri = some url)
    (hne : url ≠ "")
    (hok : (env.fetch (url ++ "&key=" ++ env.apiKey)).ok = true) :
    pollStatuses (front ++ [finalOp]) =
      (some finalOp, List.replicate front.length 10000) ∧
    awaitVideo env (front ++ [finalOp]) =
      some (Except.ok
        { videoUrl := env.createObjectURL (env.fetch (url ++ "&key=" ++ env.apiKey)).blob
          videoObject := vid
          videoBlob := (env.fetch (url ++ "&key=" ++ env.apiKey)).blob }) := by
  have hpoll := pollStatuses_append_done front finalOp hfront hdone
  have hfin : (finishOperation env finalOp).1 =
      Except.ok
        { videoUrl := env.createObjectURL (env.fetch (url ++ "&key=" ++ env.apiKey)).blob
          videoObject := vid
          videoBlob := (env.fetch (url ++ "&key=" ++ env.apiKey)).blob } := by
    simp [finishOperation, herr, hresp, hvids, hgv, huri, hne, hok]
  exact ⟨hpoll, by simp [awaitVideo, hpoll, hfin]⟩

/-- Witness for C2: one pending status followed by `doneOkOpW` yields exactly
one 10-second sleep and the fetched media of `vidW`. -/
theorem C2_poller_waits_for_done_and_returns_media_witness :
    pollStatuses ([pendingOpW] ++ [doneOkOpW]) =
      (some doneOkOpW, List.replicate 1 10000) ∧
    awaitVideo testEnv ([pendingOpW] ++ [doneOkOpW]) =
      some (Except.ok
        { videoUrl := testEnv.createObjectURL
            (testEnv.fetch ("http://v.example/file" ++ "&key=" ++ testEnv.apiKey)).blob
          videoObject := vidW
          videoBlob :=
            (testEnv.fetch ("http://v.example/file" ++ "&key=" ++ testEnv.apiKey)).blob }) :=
  C2_poller_waits_for_done_and_returns_media testEnv [pendingOpW] doneOkOpW
    { generatedVideos := some [{ video := some vidW }], raiMediaFilteredReasons := none }
    { video := some vidW } [] vidW "http://v.example/file"
    (by intro op hop; rw [List.mem_singleton] at hop; subst hop; rfl)
    rfl rfl rfl rfl rfl rfl (by decide) rfl

/-- C3: every successfully assembled payload carries the numeric target
duration (7 in extend mode, the selected duration otherwise) in its prompt
text: the synthetic instruction is prepended to a non-empty trimmed user
prompt, and a synthetic duration-carrying prompt is generated for an empty
one. -/
theorem C3_payload_prompt_carries_duration (params : GenerateVideoParams)
    (payload : GenerateVideoPayload) (h : buildPayload params = Except.ok payload) :
    (jsTrim params.prompt ≠ "" →
      payload.prompt =
        "A " ++ toString (durationForPromptOf params) ++ " second video of: " ++
          jsTrim params.prompt) ∧
    (jsTrim params.prompt = "" →
      payload.prompt = "A " ++ toString (durationForPromptOf params) ++ " second video.") ∧
    strIncludes payload.prompt (toString (durationForPromptOf params)) = true := by
  have hp := buildPayload_ok_prompt params payload h
  refine ⟨?_, ?_, ?_⟩
  · intro hne
    rw [hp, finalPromptOf, if_pos hne]
  · intro heq
    rw [hp, finalPromptOf]
    simp [heq]
  · rw [hp, finalPromptOf]
    by_cases hne : jsTrim params.prompt ≠ ""
    · rw [if_pos hne]
      apply strIncludes_of_data _ _ "A ".data
        ((" second video of: " ++ jsTrim params.prompt).data)
      simp [String.data_append]
    · rw [if_neg hne]
      apply strIncludes_of_data _ _ "A ".data " second video.".data
      simp [String.data_append]

/-- Witness for C3 at `paramsBaseW` (prompt `"a cat"`, duration 15): the
assembled prompt is the synthetic instruction and contains `"15"`. -/
theorem C3_payload_prompt_carries_duration_witness :
    (mediaStep paramsBaseW
        { basePayload paramsBaseW with prompt := finalPromptOf paramsBaseW }).prompt =
      "A 15 second video of: a cat" ∧
    strIncludes
      (mediaStep paramsBaseW
        { basePayload paramsBaseW with prompt := finalPromptOf paramsBaseW }).prompt
      (toString (durationForPromptOf paramsBaseW)) = true := by
  have h := C3_payload_prompt_carries_duration paramsBaseW
    (mediaStep paramsBaseW
      { basePayload paramsBaseW with prompt := finalPromptOf paramsBaseW })
    (buildPayload_not_extend paramsBaseW (by decide))
  refine ⟨?_, h.2.2⟩
  rw [h.1 (by decide)]
  decide

/-- C4: in frames-to-video mode with the loop flag set, a start image and no
end image, the payload's end-frame field equals the start image exactly (the
same encoded bytes and media type attached twice, also as the start image). -/
theorem C4_looping_reuses_start_frame_as_end (params : GenerateVideoParams)
    (payload : GenerateVideoPayload) (sf : ImageFile)
    (hm : params.mode = GenerationMode.FRAMES_TO_VIDEO)
    (hloop : params.isLooping = true)
    (hsf : params.startFrame = some sf)
    (_hef : params.endFrame = none)
    (h : buildPayload params = Except.ok payload) :
    payload.config.lastFrame = some (imagePayloadOf sf) ∧
    payload.image = some (imagePayloadOf sf) ∧
    payload.config.lastFrame = payload.image := by
  rw [buildPayload_not_extend params (by rw [hm]; intro hc; cases hc)] at h
  cases h
  refine ⟨?_, ?_, ?_⟩ <;> simp [mediaStep, hm, hloop, hsf]

/-- Witness for C4 at `paramsFramesLoopW` (looping, start frame only). -/
theorem C4_looping_reuses_start_frame_as_end_witness :
    (mediaStep paramsFramesLoopW
        { basePayload paramsFramesLoopW with
          prompt := finalPromptOf paramsFramesLoopW }).config.lastFrame =
      some (imagePayloadOf startFrameW) ∧
    (mediaStep paramsFramesLoopW
        { basePayload paramsFramesLoopW with
          prompt := finalPromptOf paramsFramesLoopW }).image =
      some (imagePayloadOf startFrameW) :=
  have h := C4_looping_reuses_start_frame_as_end paramsFramesLoopW
    (mediaStep paramsFramesLoopW
      { basePayload paramsFramesLoopW with prompt := finalPromptOf paramsFramesLoopW })
    startFrameW rfl rfl rfl rfl
    (buildPayload_not_extend paramsFramesLoopW (by decide))
  ⟨h.1, h.2.1⟩

/-- C8: extend mode fails before any network call both without a prior result
handle and with an empty prompt; a valid extend request's payload carries the
provider-mandated fixed model, resolution and duration regardless of the
user's selections. -/
theorem C8_extend_mode_contract :
    (∀ params : GenerateVideoParams, params.mode = GenerationMode.EXTEND_VIDEO →
      params.videoObject = none →
      ∀ env statuses, generateVideoRun env statuses params =
        (some (Except.error "Video object is required for Extend Video mode."), [])) ∧
    (∀ (params : GenerateVideoParams) (v : Video),
      params.mode = GenerationMode.EXTEND_VIDEO → params.videoObject = some v →
      jsTrim params.prompt = "" →
      ∀ env statuses, generateVideoRun env statuses params =
        (some (Except.error
          "A prompt is required to describe what happens next in the video extension."), [])) ∧
    (∀ (params : GenerateVideoParams) (payload : GenerateVideoPayload),
      params.mode = GenerationMode.EXTEND_VIDEO →
      buildPayload params = Except.ok payload →
      payload.model = VeoModel.VEO ∧
      payload.config.resolution = Resolution.P720 ∧
      payload.config.durationSecs = 7) := by
  refine ⟨?_, ?_, ?_⟩
  · intro params hm hv env statuses
    unfold generateVideoRun
    rw [buildPayload_extend_noVideo params hm hv]
  · intro params v hm hv hp env statuses
    unfold generateVideoRun
    rw [buildPayload_extend_noPrompt params v hm hv hp]
  · intro params payload hm h
    cases hv : params.videoObject with
    | none => rw [buildPayload_extend_noVideo params hm hv] at h; cases h
    | some v =>
      by_cases hp : jsTrim params.prompt = ""
      · rw [buildPayload_extend_noPrompt params v hm hv hp] at h; cases h
      · rw [buildPayload_extend_ok params v hm hv hp] at h
        cases h
        exact ⟨rfl, rfl, rfl⟩

/-- Witness for C8: the missing-handle rejection, the empty-prompt rejection
(prompt `"   "`), and the forced settings of the valid request
`paramsExtendOkW` (user selected VEO_FAST, 1080p, 30 s). -/
theorem C8_extend_mode_contract_witness :
    generateVideoRun testEnv [] paramsExtendNoVideoW =
      (some (Except.error "Video object is required for Extend Video mode."), []) ∧
    generateVideoRun testEnv [] paramsExtendNoPromptW =
      (some (Except.error
        "A prompt is required to describe what happens next in the video extension."), []) ∧
    ∀ payload, buildPayload paramsExtendOkW = Except.ok payload →
      payload.model = VeoModel.VEO ∧
      payload.config.resolution = Resolution.P720 ∧
      payload.config.durationSecs = 7 :=
  ⟨C8_extend_mode_contract.1 paramsExtendNoVideoW rfl rfl testEnv [],
   C8_extend_mode_contract.2.1 paramsExtendNoPromptW vidW rfl rfl (by decide) testEnv [],
   fun payload hpl => C8_extend_mode_contract.2.2 paramsExtendOkW payload rfl hpl⟩

/-- C1: in every generation mode a request missing that mode's required
field(s) is rejected before any network submission call: the form's submit
gate blocks text mode without a prompt, image/frames mode without a source or
start image, and references mode without references or prompt (each with its
distinct tooltip reason), while the extend-mode checks inside `generateVideo`
throw their distinct reasons with an empty network trace; the reasons of the
distinct failure conditions are pairwise distinct strings. -/
theorem C1_invalid_requests_rejected_before_network :
    (∀ s : FormState, s.generationMode = GenerationMode.TEXT_TO_VIDEO →
      jsTrim s.prompt = "" →
      submitValidation s = some "Please enter a prompt." ∧
      ∀ env statuses, submitForm env statuses s = (none, [])) ∧
    (∀ s : FormState, s.generationMode = GenerationMode.IMAGE_TO_VIDEO →
      s.startFrame = none →
      submitValidation s = some "A source image is required." ∧
      ∀ env statuses, submitForm env statuses s = (none, [])) ∧
    (∀ s : FormState, s.generationMode = GenerationMode.FRAMES_TO_VIDEO →
      s.startFrame = none →
      submitValidation s = some "A start frame is required." ∧
      ∀ env statuses, submitForm env statuses s = (none, [])) ∧
    (∀ s : FormState, s.generationMode = GenerationMode.REFERENCES_TO_VIDEO →
      s.referenceImages = [] ∨ jsTrim s.prompt = "" →
      (submitValidation s).isSome = true ∧
      ∀ env statuses, submitForm env statuses s = (none, [])) ∧
    (∀ params : GenerateVideoParams, params.mode = GenerationMode.EXTEND_VIDEO →
      params.videoObject = none →
      ∀ env statuses, generateVideoRun env statuses params =
        (some (Except.error "Video object is required for Extend Video mode."), [])) ∧
    (∀ (params : GenerateVideoParams) (v : Video),
      params.mode = GenerationMode.EXTEND_VIDEO → params.videoObject = some v →
      jsTrim params.prompt = "" →
      ∀ env statuses, generateVideoRun env statuses params =
        (some (Except.error
          "A prompt is required to describe what happens next in the video extension."), [])) ∧
    List.Nodup
      ["Please enter a prompt.", "A source image is required.",
        "A start frame is required.", "At least one reference image is required.",
        "Video object is required for Extend Video mode.",
        "A prompt is required to describe what happens next in the video extension."] := by
  refine ⟨?_, ?_, ?_, ?_, ?_, ?_, by decide⟩
  · intro s hmode hprompt
    have hval : submitValidation s = some "Please enter a prompt." := by
      simp [submitValidation, hmode, hprompt]
    exact ⟨hval, fun env statuses => by simp [submitForm, hval]⟩
  · intro s hmode hsf
    have hval : submitValidation s = some "A source image is required." := by
      simp [submitValidation, hmode, hsf]
    exact ⟨hval, fun env statuses => by simp [submitForm, hval]⟩
  · intro s hmode hsf
    have hval : submitValidation s = some "A start frame is required." := by
      simp [submitValidation, hmode, hsf]
    exact ⟨hval, fun env statuses => by simp [submitForm, hval]⟩
  · intro s hmode hor
    have hval : (submitValidation s).isSome = true := by
      by_cases hr : s.referenceImages = [] <;> by_cases hp : jsTrim s.prompt = "" <;>
        rcases hor with h | h <;> simp [submitValidation, hmode, hr, hp, h]
    exact ⟨hval, fun env statuses => by simp [submitForm, hval]⟩
  · intro params hm hv env statuses
    unfold generateVideoRun
    rw [buildPayload_extend_noVideo params hm hv]
  · intro params v hm hv hp env statuses
    unfold generateVideoRun
    rw [buildPayload_extend_noPrompt params v hm hv hp]

/-- Witness for C1: the empty-prompt text-mode form, the image mode form with
no source image, and the handle-less extend request, all rejected with no
network event. -/
theorem C1_invalid_requests_rejected_before_network_witness :
    submitValidation formBaseW = some "Please enter a prompt." ∧
    submitForm testEnv [] formBaseW = (none, []) ∧
    submitValidation formImageNoneW = some "A source image is required." ∧
    submitForm testEnv [] formImageNoneW = (none, []) ∧
    generateVideoRun testEnv [] paramsExtendNoVideoW =
      (some (Except.error "Video object is required for Extend Video mode."), []) :=
  have h1 := C1_invalid_requests_rejected_before_network.1 formBaseW rfl (by decide)
  have h2 := C1_invalid_requests_rejected_before_network.2.1 formImageNoneW rfl rfl
  ⟨h1.1, h1.2 testEnv [],
   h2.1, h2.2 testEnv [],
   C1_invalid_requests_rejected_before_network.2.2.2.2.1 paramsExtendNoVideoW rfl rfl
     testEnv []⟩

/-- C9: in references mode the form pins model, aspect ratio and resolution to
the fixed values (so every submitted payload carries them regardless of the
user's earlier selections), the form caps the reference set at 3 images, and
the payload's reference list is the ASSET-typed reference entries followed by
at most one separately attached STYLE-typed entry for the optional style
image. -/
theorem C9_references_mode_pins_and_caps :
    (∀ prevImages newImages : List ImageFile, prevImages.length ≤ 3 →
      (handleReferenceSelect prevImages newImages).length ≤ 3) ∧
    (∀ s : FormState, s.generationMode = GenerationMode.REFERENCES_TO_VIDEO →
      (applyReferencesPin s).model = VeoModel.VEO ∧
      (applyReferencesPin s).aspectRatio = AspectRatio.LANDSCAPE ∧
      (applyReferencesPin s).resolution = Resolution.P720) ∧
    (∀ (s : FormState) (payload : GenerateVideoPayload),
      s.generationMode = GenerationMode.REFERENCES_TO_VIDEO →
      buildPayload (applyReferencesPin s).toParams = Except.ok payload →
      payload.model = VeoModel.VEO ∧
      payload.config.aspectRatio = AspectRatio.LANDSCAPE ∧
      payload.config.resolution = Resolution.P720) ∧
    (∀ (params : GenerateVideoParams) (payload : GenerateVideoPayload),
      params.mode = GenerationMode.REFERENCES_TO_VIDEO →
      buildPayload params = Except.ok payload →
      payload.config.referenceImages =
        (if 0 < (assetEntries params ++ styleEntries params).length then
          some (assetEntries params ++ styleEntries params)
        else none) ∧
      (assetEntries params).length = params.referenceImages.length ∧
      (params.referenceImages.length ≤ 3 → (assetEntries params).length ≤ 3) ∧
      (styleEntries params).length ≤ 1 ∧
      (∀ e ∈ assetEntries params, e.referenceType = VideoGenerationReferenceType.ASSET) ∧
      (∀ e ∈ styleEntries params, e.referenceType = VideoGenerationReferenceType.STYLE)) := by
  refine ⟨?_, ?_, ?_, ?_⟩
  · intro prevImages newImages hlen
    simp only [handleReferenceSelect]
    split
    · exact hlen
    · simp only [List.length_append, List.length_take]
      omega
  · intro s hmode
    refine ⟨?_, ?_, ?_⟩ <;> simp [applyReferencesPin, hmode]
  · intro s payload hmode h
    have hne : (applyReferencesPin s).toParams.mode ≠ GenerationMode.EXTEND_VIDEO := by
      simp [applyReferencesPin, FormState.toParams, hmode]
    rw [buildPayload_not_extend _ hne] at h
    cases h
    have hp := mediaStep_preserves (applyReferencesPin s).toParams
      { basePayload (applyReferencesPin s).toParams with
        prompt := finalPromptOf (applyReferencesPin s).toParams }
    refine ⟨?_, ?_, ?_⟩
    · rw [hp.2.1]
      simp [basePayload, applyReferencesPin, FormState.toParams, hmode]
    · rw [hp.2.2.1]
      simp [basePayload, applyReferencesPin, FormState.toParams, hmode]
    · rw [hp.2.2.2.1]
      simp [basePayload, applyReferencesPin, FormState.toParams, hmode]
  · intro params payload hmode h
    have hne : params.mode ≠ GenerationMode.EXTEND_VIDEO := by
      rw [hmode]
      intro hc
      cases hc
    rw [buildPayload_not_extend _ hne] at h
    cases h
    refine ⟨?_, by simp [assetEntries], ?_, ?_, ?_, ?_⟩
    · cases hst : params.styleImage with
      | none =>
        simp [mediaStep, hmode, hst, assetEntries, styleEntries, basePayload]
        split <;> simp
      | some st =>
        simp [mediaStep, hmode, hst, assetEntries, styleEntries, basePayload]
    · intro hc
      simpa [assetEntries] using hc
    · cases hst : params.styleImage <;> simp [styleEntries, hst]
    · intro e he
      simp [assetEntries] at he
      obtain ⟨img, _, rfl⟩ := he
      rfl
    · intro e he
      cases hst : params.styleImage with
      | none => rw [styleEntries.eq_def, hst] at he; cases he
      | some st =>
        rw [styleEntries.eq_def, hst] at he
        rw [List.mem_singleton] at he
        subst he
        rfl

/-- Witness for C9: four images offered to an empty reference set are capped
at 3; the pinned settings and the assembled payload settings at the concrete
references-mode form `formRefsW` (whose user selections were VEO_FAST,
portrait, 1080p). -/
theorem C9_references_mode_pins_and_caps_witness :
    (handleReferenceSelect [] [refImgW, refImgW, refImgW, refImgW]).length ≤ 3 ∧
    (applyReferencesPin formRefsW).model = VeoModel.VEO ∧
    (applyReferencesPin formRefsW).aspectRatio = AspectRatio.LANDSCAPE ∧
    (applyReferencesPin formRefsW).resolution = Resolution.P720 ∧
    ∀ payload, buildPayload (applyReferencesPin formRefsW).toParams = Except.ok payload →
      payload.model = VeoModel.VEO ∧
      payload.config.aspectRatio = AspectRatio.LANDSCAPE ∧
      payload.config.resolution = Resolution.P720 :=
  have h2 := C9_references_mode_pins_and_caps.2.1 formRefsW rfl
  ⟨C9_references_mode_pins_and_caps.1 [] [refImgW, refImgW, refImgW, refImgW] (by decide),
   h2.1, h2.2.1, h2.2.2,
   fun payload hpl =>
     C9_references_mode_pins_and_caps.2.2.1 formRefsW payload rfl hpl⟩
